import Mathlib

/-!
# Verification of the Dissemin deposit protocol core

Shallow embedding of `deposit/protocol.py`, `deposit/osf/protocol.py` and the
URL routing of `papers/urls.py`, together with proofs of the specified
properties of the deposit workflow.

String-manipulating primitives of the source are modelled by structural
recursion over the character list of a `String`, so that every definition
evaluates inside the kernel.
-/

set_option maxRecDepth 8192

namespace Dissemin

/-- Python truthiness of an optional string (`None` and `""` are falsy). -/
def pyTruthy : Option String → Bool
  | none => false
  | some s => s ≠ ""

/-- Python `unicode(x)` on an optional string: `None` prints as `"None"`. -/
def pyUnicode : Option String → String
  | none => "None"
  | some s => s

/-- The whitespace characters stripped by Python's `str.strip()`. -/
def isPySpace (c : Char) : Bool :=
  c = ' ' || c = '\t' || c = '\n' || c = '\x0d' || c = '\x0b' || c = '\x0c'

/-- Drop the leading run of Python whitespace from a character list. -/
def stripLeading : List Char → List Char
  | [] => []
  | c :: cs => if isPySpace c then stripLeading cs else c :: cs

/-- Python `s.strip()`: drop leading and trailing whitespace. -/
def pyStrip (s : String) : String :=
  String.mk ((stripLeading (stripLeading s.data).reverse).reverse)

/-- Split a character list at every comma, keeping empty pieces. -/
def splitCommaAux : List Char → List Char → List (List Char)
  | [], acc => [acc.reverse]
  | c :: cs, acc =>
      if c = ',' then acc.reverse :: splitCommaAux cs []
      else splitCommaAux cs (c :: acc)

/-- Python `s.split(',')`: split on every comma, keeping empty pieces. -/
def pySplitComma (s : String) : List String :=
  (splitCommaAux s.data []).map String.mk

/-- Python `s[:-6]`: drop the last six characters (empty when shorter). -/
def pyDropLast6 (s : String) : String :=
  String.mk (s.data.take (s.data.length - 6))

/-- Substring scan: does `needle` occur in the scanned list? -/
def containsAux (needle : List Char) : List Char → Bool
  | [] => needle.isEmpty
  | c :: cs => needle.isPrefixOf (c :: cs) || containsAux needle cs

/-- Python `needle in haystack` on strings: substring containment. -/
def pyContains (haystack needle : String) : Bool :=
  containsAux needle.data haystack.data

/-- Modelled from the spec: the status enumeration `DEPOSIT_STATUS_CHOICES`
lives in `deposit/models.py`, which is not among the provided sources; the spec
fixes it as "a fixed enumeration: e.g. pending, published, failed".  Each
choice is a (value, display) pair as in Django choices. -/
def DEPOSIT_STATUS_CHOICES : List (String × String) :=
  [("pending", "Pending"), ("published", "Published"), ("failed", "Failed")]

/-- The legal status values: `[x for x,y in DEPOSIT_STATUS_CHOICES]`. -/
def depositStatusValues : List String := DEPOSIT_STATUS_CHOICES.map Prod.fst

/-- Model of `papers.baremodels.BareOaiRecord`, restricted to the fields the deposit
wrapper sets (`source`, `identifier`, `splash_url`, `pdf_url`). -/
structure BareOaiRecord where
  source : String
  identifier : String
  splash_url : Option String
  pdf_url : Option String
deriving Repr, DecidableEq

/-- Model of `deposit.protocol.DepositResult`: the value object produced by a deposit
attempt.  Field defaults follow `DepositResult.__init__`. -/
structure DepositResult where
  identifier : Option String := none
  splash_url : Option String := none
  pdf_url : Option String := none
  logs : Option String := none
  status : String := "published"
  message : Option String := none
  oairecord : Option BareOaiRecord := none
  additional_info : List String := []
deriving Repr, DecidableEq

/-- Model of `DepositResult.__init__`: assigns the fields and raises `ValueError`
(modelled as `Except.error`) when the status is not one of the fixed
enumeration's values. -/
def DepositResult_init (identifier splash_url pdf_url logs : Option String)
    (status : String) (message : Option String) : Except String DepositResult :=
  if status ∈ depositStatusValues then
    Except.ok { identifier, splash_url, pdf_url, logs, status, message,
                oairecord := none, additional_info := [] }
  else
    Except.error ("invalid status " ++ status)

/-- An exception value as the wrapper distinguishes them: a `DepositError`
carrying its message, or any other exception carrying `str(type(e))`,
`str(e)` and `traceback.format_exc()`. -/
inductive PyExc where
  | depositError (msg : String)
  | other (ty txt trace : String)
deriving Repr, DecidableEq

/-- The behaviour of one `submit_deposit` call: either it returns a raw
`DepositResult`, or it raises.  Each case carries the protocol log buffer
(`self._logs`) as it stands when the call finishes. -/
inductive SubmitOutcome where
  | ok (result : DepositResult) (logs : String)
  | raised (e : PyExc) (logs : String)
deriving Repr, DecidableEq

/-- The payload handed to `settings.DEPOSIT_NOTIFICATION_CALLBACK`. -/
structure NotificationPayload where
  name : String
  repo : String
  paperurl : String
deriving Repr, DecidableEq

/-- The slice of the Django `User` record the wrapper reads. -/
structure User where
  name : String
  first_name : String
  last_name : String
deriving Repr, DecidableEq

/-- The slice of the `Repository` record the deposit code reads. -/
structure Repository where
  id : Nat
  name : String
  oaisource : String
  endpoint : Option String
  api_key : Option String
deriving Repr, DecidableEq

/-- Django reverse of the route named "paper" under `papers/urls.py`, whose
pattern is caret, "paper/", the numeric pk group, "/", dollar. -/
def reverse_paper (pk : Nat) : String := "/paper/" ++ toString pk ++ "/"

/-- The notification payload computed at the top of `submit_deposit_wrapper`:
the user's display name (first + last when both are non-empty, else `name`),
the repository name, and the paper's URL. -/
def mkNotificationPayload (user : User) (repo : Repository) (paperPk : Nat) :
    NotificationPayload :=
  { name := if user.first_name ≠ "" && user.last_name ≠ "" then
        user.first_name ++ " " ++ user.last_name
      else user.name,
    repo := repo.name,
    paperurl := reverse_paper paperPk }

/-- The `BareOaiRecord` the wrapper builds for a result with a splash URL:
the identifier interpolates the repository id and the unicode rendering of
the result identifier into the "deposition:%d:%s" format. -/
def depositionRecord (repo : Repository) (result : DepositResult) :
    BareOaiRecord :=
  { source := repo.oaisource,
    identifier := "deposition:" ++ toString repo.id ++ ":"
      ++ pyUnicode result.identifier,
    splash_url := result.splash_url,
    pdf_url := result.pdf_url }

/-- Model of `ugettext` applied to the generic user-facing failure message. -/
def genericFailureMessage : String :=
  "Failed to connect to the repository. Please try again later."

/-- What a run of `submit_deposit_wrapper` produces for its caller: a returned
`DepositResult`, or an exception escaping the wrapper. -/
inductive WrapperReturn where
  | ret (r : DepositResult)
  | raised (e : PyExc)
deriving Repr, DecidableEq

/-- A full account of one wrapper run: what the caller receives, every payload
the notification callback was invoked with (in order), and every
`BareOaiRecord` passed to `paper.add_oairecord` (in order). -/
structure WrapperRun where
  outcome : WrapperReturn
  callbackCalls : List NotificationPayload
  attachedRecords : List BareOaiRecord
deriving Repr, DecidableEq

/-- The `except DepositError` clause of `submit_deposit_wrapper`: log the
message, append it to the payload's paper URL, notify, and return a failed
result.  The callback invocation here is not inside any `try`, so an exception
it raises escapes the wrapper.  `priorCalls`/`priorRecs` account for effects
already performed inside the `try` block. -/
def handleDepositError (logs msg : String) (payload : NotificationPayload)
    (callback : NotificationPayload → Option PyExc)
    (priorCalls : List NotificationPayload) (priorRecs : List BareOaiRecord) :
    WrapperRun :=
  let logs' := logs ++ "Message: " ++ msg ++ "\n"
  let payload' := { payload with paperurl := payload.paperurl ++ " " ++ msg }
  match callback payload' with
  | some e =>
      { outcome := .raised e,
        callbackCalls := priorCalls ++ [payload'],
        attachedRecords := priorRecs }
  | none =>
      { outcome := .ret { logs := some logs', status := "failed",
                          message := some msg },
        callbackCalls := priorCalls ++ [payload'],
        attachedRecords := priorRecs }

/-- The `except Exception` clause of `submit_deposit_wrapper`: log the
exception's type, text and stack trace, and return a failed result with the
generic message.  No notification is sent on this path. -/
def handleOtherException (logs ty txt trace : String)
    (priorCalls : List NotificationPayload) (priorRecs : List BareOaiRecord) :
    WrapperRun :=
  let logs' := logs ++ "Caught exception:\n" ++ ty ++ ": " ++ txt ++ "\n"
    ++ trace ++ "\n"
  { outcome := .ret { logs := some logs', status := "failed",
                      message := some genericFailureMessage },
    callbackCalls := priorCalls,
    attachedRecords := priorRecs }

/-- Model of `RepositoryProtocol.submit_deposit_wrapper`.  The `submit_deposit` call is
abstracted by its `SubmitOutcome`, `paper.add_oairecord` by the `attach`
function, and the notification callback by a function returning the exception
it raises, if any.  An exception raised by the callback inside the `try` block
is dispatched to the matching `except` clause; one raised inside the
`except DepositError` clause escapes. -/
def submit_deposit_wrapper (user : User) (repo : Repository) (paperPk : Nat)
    (attach : BareOaiRecord → BareOaiRecord)
    (outcome : SubmitOutcome)
    (callback : NotificationPayload → Option PyExc) : WrapperRun :=
  let payload := mkNotificationPayload user repo paperPk
  match outcome with
  | .raised (.depositError msg) logs =>
      handleDepositError logs msg payload callback [] []
  | .raised (.other ty txt trace) logs =>
      handleOtherException logs ty txt trace [] []
  | .ok rawResult logs =>
      let result := { rawResult with logs := some logs }
      let withRecord :=
        if pyTruthy result.splash_url then
          let bareRec := depositionRecord repo result
          ({ result with oairecord := some (attach bareRec) }, [bareRec])
        else (result, [])
      match callback payload with
      | none =>
          { outcome := .ret withRecord.1,
            callbackCalls := [payload],
            attachedRecords := withRecord.2 }
      | some (.depositError msg) =>
          handleDepositError logs msg payload callback [payload] withRecord.2
      | some (.other ty txt trace) =>
          handleOtherException logs ty txt trace [payload] withRecord.2

/-! ## OSF backend (`deposit/osf/protocol.py`) -/

/-- An author name as exposed by `paper.json()`: the nested name mapping
with its first and last fields. -/
structure AuthorName where
  first : String
  last : String
deriving Repr, DecidableEq

/-- The slice of `paper.json()` the OSF backend reads: title, publication
date string, authors, and the bibliographic records' `doi` values (a record
without a DOI contributes `none`). -/
structure Paper where
  title : String
  date : String
  authors : List AuthorName
  records : List (Option String)
deriving Repr, DecidableEq

/-- The validated OSF form fields (`cleaned_data`) read by the backend. -/
structure OsfForm where
  abstract : String
  tags : String
  license : String
deriving Repr, DecidableEq

/-- The sentinel "no license" ID chosen in `OSFProtocol.__init__`, depending
on whether the endpoint is the OSF sandbox. -/
def OSF_no_license_id (endpoint : Option String) : String :=
  if endpoint = some "https://test-api.osf.io/" then "58fd62fcda3e2400012ca5cc"
  else "563c1cf88c5e4a3877f9e965"

/-- Model of `RepositoryProtocol.init_deposit`: bind paper and user, reset the log,
report eligibility `True`. -/
def RepositoryProtocol_init_deposit (paper : Paper) (user : User) :
    (Option Paper × Option User × String) × Bool :=
  ((some paper, some user, ""), true)

/-- Model of `OSFProtocol.init_deposit`: delegates to the base implementation, then
returns `True` unconditionally (despite its docstring "Refuse deposit when
the paper is already on OSF"). -/
def OSFProtocol_init_deposit (paper : Paper) (user : User) :
    (Option Paper × Option User × String) × Bool :=
  let base := RepositoryProtocol_init_deposit paper user
  (base.1, true)

/-- Model of `OSFProtocol.translate_author` with the default goal: the full name,
first name, blank, last name. -/
def translate_author (a : AuthorName) : String := a.first ++ " " ++ a.last

/-- Model of `OSFProtocol.translate_author` with goal `"contrib"`: the contributor
payload, of type `contributors`, carrying the full name under the
`full_name` attribute. -/
structure ContribPayload where
  ty : String
  full_name : String
deriving Repr, DecidableEq

def translate_author_contrib (a : AuthorName) : ContribPayload :=
  { ty := "contributors", full_name := translate_author a }

/-- Model of `OSFProtocol.create_tags`: split the form's comma-separated tags string,
strip each piece, drop empty pieces. -/
def create_tags (tagsField : String) : List String :=
  ((pySplitComma tagsField).map pyStrip).filter (fun item => item ≠ "")

/-- Model of `OSFProtocol.get_key_data` specialised to the only key it is called with
(the DOI), over the records: the first truthy value, else `None`. -/
def get_key_data : List (Option String) → Option String
  | [] => none
  | r :: rs => if pyTruthy r then r else get_key_data rs

/-- The license block placed under `attributes` of a node or preprint update
payload: either populated with a year and copyright holders, or empty. -/
inductive LicenseBlock where
  | populated (year : String) (copyright_holders : List String)
  | emptyBlock
deriving Repr, DecidableEq

/-- The `PATCH /v2/nodes/{node}/` payload built by `OSFProtocol.create_license`:
type `"nodes"`, the node ID, a `node_license` attributes block, and a license
relationship carrying the selected license ID. -/
structure NodeLicensePayload where
  ty : String
  id : String
  node_license : LicenseBlock
  license_relationship_id : String
deriving Repr, DecidableEq

/-- The attributes selection of `OSFProtocol.create_license`: the
`node_license` block is populated with the publication year and the authors'
full names exactly when the selected license is the "no license" sentinel. -/
def create_license_payload (node_id license_id no_license_id pub_date : String)
    (authors : List AuthorName) : NodeLicensePayload :=
  { ty := "nodes",
    id := node_id,
    node_license :=
      if license_id = no_license_id then
        .populated pub_date (authors.map translate_author)
      else .emptyBlock,
    license_relationship_id := license_id }

/-- The `PATCH /v2/preprints/{preprint}/` payload built by
`OSFProtocol.update_preprint_license`: mirrors `create_license_payload` but
the attributes block is keyed `license_record`. -/
structure PreprintLicensePayload where
  ty : String
  id : String
  license_record : LicenseBlock
  license_relationship_id : String
deriving Repr, DecidableEq

def update_preprint_license_payload
    (preprint_id license_id no_license_id pub_date : String)
    (authors : List AuthorName) : PreprintLicensePayload :=
  { ty := "nodes",
    id := preprint_id,
    license_record :=
      if license_id = no_license_id then
        .populated pub_date (authors.map translate_author)
      else .emptyBlock,
    license_relationship_id := license_id }

/-! ### The mocked OSF HTTP conversation

`submit_deposit` performs a strictly ordered sequence of HTTP calls.  Each
call is modelled by consuming the next `OsfResponse` from an oracle list;
a response carries exactly the fields the backend reads from the wire. -/

/-- One mocked HTTP response: the status code, the body text (logged on
mismatch), and the JSON fields the backend extracts —
`data.id`, the per-entry `links.upload` values, and `data.attributes.path`. -/
structure OsfResponse where
  status_code : Nat
  text : String
  data_id : String
  upload_links : List String
  file_path : String
deriving Repr, DecidableEq

/-- How a mocked `submit_deposit` run fails: a `DepositError` carrying its
message and the log buffer at the raise, or exhaustion of the response
oracle (a deficiency of the mock, not a behaviour of the program). -/
inductive OsfErr where
  | depositError (msg : String) (logs : String)
  | mockExhausted
deriving Repr, DecidableEq

/-- Python `s[1:]`. -/
def pyDropFirst (s : String) : String := String.mk (s.data.drop 1)

/-- Python `s.replace(old, new)` for a non-empty pattern: replace every
non-overlapping occurrence, scanning left to right.  Structural recursion on
a fuel argument (each step consumes at least one character, so fuel equal to
the list's length is enough). -/
def replaceFuel (pat rep : List Char) : Nat → List Char → List Char
  | _, [] => []
  | 0, l => l
  | fuel + 1, c :: cs =>
      if pat.isPrefixOf (c :: cs) then
        rep ++ replaceFuel pat rep fuel (cs.drop (pat.length - 1))
      else c :: replaceFuel pat rep fuel cs

/-- Python `s.replace(old, new)` (the source only uses non-empty `old`). -/
def pyReplaceAll (s old new : String) : String :=
  if old.data.isEmpty then s
  else String.mk (replaceFuel old.data new.data s.data.length s.data)

/-- The ASCII apostrophe, as a one-character string. -/
def pyQuote : String := String.mk [Char.ofNat 39]

/-- Python 2 `str` of a list of unicode strings: each element is rendered as
`u`, an apostrophe, the text and a closing apostrophe; elements are joined
with comma-blank inside square brackets. -/
def pyReprUnicodeList (xs : List String) : String :=
  "[" ++ String.intercalate ", "
    (xs.map (fun s => "u" ++ pyQuote ++ s ++ pyQuote)) ++ "]"

/-- Consume the next mocked response. -/
def popResponse : List OsfResponse →
    Except OsfErr (OsfResponse × List OsfResponse)
  | [] => .error .mockExhausted
  | r :: rs => .ok (r, rs)

/-- Model of `RepositoryProtocol.log_request` as used by the OSF backend: log the URL
and status line; on an unexpected status also log the response body and raise
`DepositError(errorMsg)`.  Returns the extended log buffer. -/
def OSF_log_request (logs url : String) (resp : OsfResponse) (expected : Nat)
    (errorMsg : String) : Except OsfErr String :=
  let logs1 := logs ++ "--- Request to " ++ url ++ "\n\n"
    ++ "Status code: " ++ toString resp.status_code ++ " (expected "
    ++ toString expected ++ ")\n\n"
  if resp.status_code = expected then .ok logs1
  else .error (.depositError errorMsg
    (logs1 ++ "Server response:\n" ++ resp.text ++ "\n" ++ "\n"))

/-- Stand-in for `json.dumps(min_node_structure, indent=4)`: a deterministic
rendering of the node structure's fields.  The exact JSON text matters to no
property proved here; only its presence in the log is modelled. -/
def dumpNodeStructure (title abstract : String) (tags : List String) : String :=
  "\x7btitle: " ++ title ++ ", category: project, description: " ++ abstract
    ++ ", tags: [" ++ String.intercalate ", " tags ++ "]\x7d"

/-- Stand-in for `json.dumps(authors, indent=4)` on the same terms. -/
def dumpAuthors (authors : List AuthorName) : String :=
  "[" ++ String.intercalate ", " (authors.map translate_author) ++ "]"

/-- Model of `OSFProtocol.create_node`: `POST /v2/nodes/`, expect 201, return the
created node's ID. -/
def OSF_create_node (api_url title abstract : String) (tags : List String)
    (authors : List AuthorName) (logs : String)
    (responses : List OsfResponse) :
    Except OsfErr (String × String × List OsfResponse) := do
  let logs := logs ++ "### Creating the metadata\n"
    ++ dumpNodeStructure title abstract tags ++ "\n"
    ++ dumpAuthors authors ++ "\n"
  let request_url := api_url ++ "v2/nodes/"
  let (resp, responses) ← popResponse responses
  let logs ← OSF_log_request logs request_url resp 201
    "Unable to create a project on OSF."
  return (resp.data_id, logs, responses)

/-- Model of `OSFProtocol.get_newnode_osf_storage`: `GET /v2/nodes/{node}/files/`,
expect 200, return the storage entries' upload links. -/
def OSF_get_storage (api_url node_id logs : String)
    (responses : List OsfResponse) :
    Except OsfErr (List String × String × List OsfResponse) := do
  let storage_url := api_url ++ "v2/nodes/" ++ node_id ++ "/files/"
  let (resp, responses) ← popResponse responses
  let logs ← OSF_log_request logs storage_url resp 200
    "Unable to authenticate to OSF."
  return (resp.upload_links, logs, responses)

/-- Model of `OSFProtocol.add_contributors`: one `POST` per author to
`/v2/nodes/{node}/contributors/`, each expected to return 201; the payload
sent for each author is `translate_author_contrib author`. -/
def OSF_add_contributors (contrib_url : String) (authors : List AuthorName)
    (logs : String) (responses : List OsfResponse) :
    Except OsfErr (String × List OsfResponse) :=
  match authors with
  | [] => .ok (logs, responses)
  | _author :: rest => do
      let (resp, responses') ← popResponse responses
      let logs' ← OSF_log_request logs contrib_url resp 201
        "Unable to add contributors."
      OSF_add_contributors contrib_url rest logs' responses'

/-- Model of `OSFProtocol.create_license`: `PATCH /v2/nodes/{node}/` with the payload
of `create_license_payload`, expect 200, then log the license diagnostics.
(The source also computes a `license_url` it never uses.) -/
def OSF_create_license
    (api_url node_id license_id no_license_id pub_date : String)
    (authors : List AuthorName) (logs : String)
    (responses : List OsfResponse) :
    Except OsfErr (NodeLicensePayload × String × List OsfResponse) := do
  let node_url := api_url ++ "v2/nodes/" ++ node_id ++ "/"
  let payload :=
    create_license_payload node_id license_id no_license_id pub_date authors
  let (resp, responses) ← popResponse responses
  let logs ← OSF_log_request logs node_url resp 200 "Unable to update license."
  let logs := logs ++ "### Updating License\n"
    ++ toString resp.status_code ++ "\n" ++ resp.text ++ "\n" ++ "==========\n"
    ++ "self.license_id: " ++ license_id ++ "  | self.no_license_id: "
    ++ no_license_id ++ "\n" ++ "==========\n"
  return (payload, logs, responses)

/-- Model of `OSFProtocol.create_preprint`: `POST /v2/preprints/` linking the paper's
DOI (first record exposing one), the node, the uploaded primary file and the
fixed provider `"osf"`; expect 201, return the preprint's ID. -/
def OSF_create_preprint (api_url node_id pf_path : String)
    (records : List (Option String)) (logs : String)
    (responses : List OsfResponse) :
    Except OsfErr (String × String × List OsfResponse) := do
  let preprint_node_url := api_url ++ "v2/preprints/"
  let _paper_doi := get_key_data records
  let _primary_file := pf_path
  let _node := node_id
  let logs := logs ++ "### Creating Preprint\n"
  let (resp, responses) ← popResponse responses
  let logs ← OSF_log_request logs preprint_node_url resp 201
    "Unable to create the preprint."
  let logs := logs ++ toString resp.status_code ++ "\n"
  return (resp.data_id, logs, responses)

/-- Model of `OSFProtocol.update_preprint_license`: `PATCH /v2/preprints/{preprint}/`
with the payload of `update_preprint_license_payload`, expect 200. -/
def OSF_update_preprint_license
    (api_url preprint_id license_id no_license_id pub_date : String)
    (authors : List AuthorName) (logs : String)
    (responses : List OsfResponse) :
    Except OsfErr (PreprintLicensePayload × String × List OsfResponse) := do
  let payload := update_preprint_license_payload preprint_id license_id
    no_license_id pub_date authors
  let preprint_node_url := api_url ++ "v2/preprints/" ++ preprint_id ++ "/"
  let logs := logs ++ "### Updating the Preprint License\n"
  let (resp, responses) ← popResponse responses
  let logs ← OSF_log_request logs preprint_node_url resp 200
    "Unable to update the Preprint License."
  let logs := logs ++ toString resp.status_code ++ "\n" ++ resp.text ++ "\n"
  return (payload, logs, responses)

/-- Model of `OSFProtocol.submit_deposit`, with HTTP mocked by the response oracle.
Returns the `DepositResult` handed back to the wrapper together with the log
buffer, or the `DepositError` aborting the attempt.  The final assignments of
`identifier`, `splash_url` and `pdf_url` onto the result are commented out in
the source, so the result returned on success is the default-constructed
`DepositResult`. -/
def OSFProtocol_submit_deposit (repo : Repository) (paper : Paper)
    (form : OsfForm) (logs0 : String) (responses : List OsfResponse) :
    Except OsfErr (DepositResult × String) := do
  if pyTruthy repo.endpoint = false then
    throw (OsfErr.depositError "No Repository endpoint provided." logs0)
  if repo.api_key = none then
    throw (OsfErr.depositError "No OSF token provided." logs0)
  let api_url := repo.endpoint.getD ""
  let license_id := form.license
  let no_license_id := OSF_no_license_id repo.endpoint
  let abstract := form.abstract
  let authors := paper.authors
  let records := paper.records
  let pub_date := pyDropLast6 paper.date
  let tags := create_tags form.tags
  let deposit_result : DepositResult := {}
  let (node_id, logs, responses) ←
    OSF_create_node api_url paper.title abstract tags authors logs0 responses
  let logs := logs ++ "### Creating a new depository\n"
  let (osf_links, logs, responses) ←
    OSF_get_storage api_url node_id logs responses
  let osf_upload_link :=
    pyReplaceAll (pyReplaceAll (pyReprUnicodeList osf_links.eraseDups)
      ("[u" ++ pyQuote) "") (pyQuote ++ "]") ""
  let logs := logs ++ "### Uploading the PDF\n"
  let upload_url := osf_upload_link ++ "?kind=file&name=article.pdf"
  let (resp, responses) ← popResponse responses
  let logs ← OSF_log_request logs upload_url resp 201
    "Unable to upload the PDF file."
  let pf_path := pyDropFirst resp.file_path
  let contrib_url := api_url ++ "v2/nodes/" ++ node_id ++ "/contributors/"
  let (logs, responses) ←
    OSF_add_contributors contrib_url authors logs responses
  let (_node_payload, logs, responses) ← OSF_create_license api_url node_id
    license_id no_license_id pub_date authors logs responses
  let (preprint_id, logs, responses) ←
    OSF_create_preprint api_url node_id pf_path records logs responses
  let preprint_public_url :=
    if api_url = "https://test-api.osf.io/" then
      "https://test.osf.io/" ++ preprint_id
    else "https://osf.io" ++ preprint_id
  let preprint_public_pdf := preprint_public_url ++ "/download"
  let (_preprint_payload, logs, _responses) ← OSF_update_preprint_license
    api_url preprint_id license_id no_license_id pub_date authors logs
    responses
  let project_public_url :=
    if api_url = "https://test-api.osf.io/" then
      "https://test.osf.io/" ++ node_id
    else "https://osf.io/" ++ node_id
  let logs := logs ++ "### FINAL DEBUG\n" ++ project_public_url ++ "\n"
    ++ preprint_public_url ++ "\n" ++ preprint_public_pdf ++ "\n"
  -- deposit_result.identifier = projet_public_url    (commented out in source)
  -- deposit_result.splash_url = preprint_public_url  (commented out in source)
  -- deposit_result.pdf_url = preprint_public_pdf     (commented out in source)
  return (deposit_result, logs)

/-- Helper: the `DepositResult` a run of the mocked `submit_deposit`
returned, if it returned one. -/
def osfRunResult (e : Except OsfErr (DepositResult × String)) :
    Option DepositResult :=
  (Except.toOption e).map Prod.fst

/-- Helper: the log buffer of a mocked `submit_deposit` run. -/
def osfRunLogs (e : Except OsfErr (DepositResult × String)) : String :=
  match e with
  | .ok (_, logs) => logs
  | .error (.depositError _ logs) => logs
  | .error .mockExhausted => ""

/-! ### A concrete successful OSF deposit scenario

A sandbox repository, a three-author paper, and the nine HTTP responses of a
fully successful conversation (`201, 200, 201, 201, 201, 201, 200, 201, 200`
in call order). -/

def sandboxRepo : Repository :=
  { id := 7, name := "OSF Sandbox", oaisource := "osf",
    endpoint := some "https://test-api.osf.io/",
    api_key := some "secret-token" }

def threeAuthorPaper : Paper :=
  { title := "On Things",
    date := "2016-02-01",
    authors := [⟨"Ada", "Lovelace"⟩, ⟨"Alan", "Turing"⟩, ⟨"Emmy", "Noether"⟩],
    records := [none, some "10.1000/xyz123"] }

def filledOsfForm : OsfForm :=
  { abstract := "An abstract.", tags := "a, b ,, c",
    license := "58fd62fcda3e2400012ca5cc" }

def okResponse : OsfResponse :=
  { status_code := 200, text := "ok", data_id := "", upload_links := [],
    file_path := "" }

def nineSuccessResponses : List OsfResponse :=
  [ { okResponse with status_code := 201, data_id := "node1" },
    { okResponse with upload_links :=
        ["https://files.osf.io/v1/resources/node1/providers/osfstorage/"] },
    { okResponse with status_code := 201, file_path := "/file9" },
    { okResponse with status_code := 201 },
    { okResponse with status_code := 201 },
    { okResponse with status_code := 201 },
    okResponse,
    { okResponse with status_code := 201, data_id := "pre1" },
    okResponse ]

/-- A concrete user for closed instances of the wrapper theorems. -/
def user0 : User :=
  { name := "adalovelace", first_name := "Ada", last_name := "Lovelace" }

/-- A concrete raw result with a splash URL, as a backend would hand back to
the wrapper on success. -/
def splashResult : DepositResult :=
  { identifier := some "p1",
    splash_url := some "https://test.osf.io/p1",
    pdf_url := some "https://test.osf.io/p1/download" }

/-! ## Helper lemmas -/

theorem containsAux_eq_true_iff (n l : List Char) :
    containsAux n l = true ↔ n <:+: l := by
  induction l with
  | nil =>
      simp [containsAux, List.isEmpty_iff, List.infix_nil]
  | cons c cs ih =>
      simp [containsAux, Bool.or_eq_true, ih, List.infix_cons_iff,
        List.isPrefixOf_iff_prefix]

theorem pyContains_of_surround (hay needle : String) (l₁ l₂ : List Char)
    (h : hay.data = l₁ ++ needle.data ++ l₂) : pyContains hay needle = true := by
  unfold pyContains
  rw [containsAux_eq_true_iff, h]
  exact List.infix_append _ _ _

/-- Shape of a wrapper run when `submit_deposit` returns normally and the
notification callback returns normally. -/
theorem wrapper_ok_run (user : User) (repo : Repository) (pk : Nat)
    (attach : BareOaiRecord → BareOaiRecord) (raw : DepositResult)
    (logs : String) (callback : NotificationPayload → Option PyExc)
    (h : callback (mkNotificationPayload user repo pk) = none) :
    submit_deposit_wrapper user repo pk attach (SubmitOutcome.ok raw logs)
        callback
      = if pyTruthy raw.splash_url then
          { outcome := WrapperReturn.ret
              { raw with
                logs := some logs
                oairecord := some (attach (depositionRecord repo
                  { raw with logs := some logs })) },
            callbackCalls := [mkNotificationPayload user repo pk],
            attachedRecords := [depositionRecord repo
              { raw with logs := some logs }] }
        else
          { outcome := WrapperReturn.ret { raw with logs := some logs },
            callbackCalls := [mkNotificationPayload user repo pk],
            attachedRecords := [] } := by
  by_cases hs : pyTruthy raw.splash_url <;>
    simp [submit_deposit_wrapper, h, hs]

/-- Shape of a wrapper run when `submit_deposit` raises `DepositError(msg)`
and the notification callback returns normally. -/
theorem wrapper_depositError_run (user : User) (repo : Repository) (pk : Nat)
    (attach : BareOaiRecord → BareOaiRecord) (msg logs : String)
    (callback : NotificationPayload → Option PyExc)
    (h : callback { mkNotificationPayload user repo pk with
        paperurl := (mkNotificationPayload user repo pk).paperurl ++ " "
          ++ msg } = none) :
    submit_deposit_wrapper user repo pk attach
        (SubmitOutcome.raised (PyExc.depositError msg) logs) callback
      = { outcome := WrapperReturn.ret
            { logs := some (logs ++ "Message: " ++ msg ++ "\n"),
              status := "failed", message := some msg },
          callbackCalls := [{ mkNotificationPayload user repo pk with
            paperurl := (mkNotificationPayload user repo pk).paperurl ++ " "
              ++ msg }],
          attachedRecords := [] } := by
  simp [submit_deposit_wrapper, handleDepositError, h]

/-- Shape of a wrapper run when `submit_deposit` raises an exception that is
not a `DepositError` (the notification callback is never reached). -/
theorem wrapper_other_run (user : User) (repo : Repository) (pk : Nat)
    (attach : BareOaiRecord → BareOaiRecord) (ty txt trace logs : String)
    (callback : NotificationPayload → Option PyExc) :
    submit_deposit_wrapper user repo pk attach
        (SubmitOutcome.raised (PyExc.other ty txt trace) logs) callback
      = { outcome := WrapperReturn.ret
            { logs := some (logs ++ "Caught exception:\n" ++ ty ++ ": "
                ++ txt ++ "\n" ++ trace ++ "\n"),
              status := "failed", message := some genericFailureMessage },
          callbackCalls := [], attachedRecords := [] } := rfl

/-! ## Claim theorems -/

/-- C7: for every status value passed to the `DepositResult` constructor,
construction raises an error if and only if the value is not a member of the
fixed status enumeration, and every successfully constructed result has a
status in that enumeration. -/
theorem DepositResult_init_validates_status :
    ∀ (identifier splash_url pdf_url logs : Option String) (status : String)
      (message : Option String),
      ((∃ e, DepositResult_init identifier splash_url pdf_url logs status
          message = Except.error e) ↔ status ∉ depositStatusValues) ∧
      ∀ r, DepositResult_init identifier splash_url pdf_url logs status
          message = Except.ok r → r.status ∈ depositStatusValues := by
  intro i s p l st m
  by_cases h : st ∈ depositStatusValues
  · constructor
    · simp [DepositResult_init, h]
    · intro r hr
      simp only [DepositResult_init, if_pos h] at hr
      cases hr
      exact h
  · constructor
    · simp [DepositResult_init, h]
    · intro r hr
      simp [DepositResult_init, h] at hr

/-- Witness for C7 at concrete statuses: `"bogus"` is rejected and the result
constructed with the default status `"published"` has a status inside the
enumeration. -/
theorem DepositResult_init_validates_status_witness :
    (∃ e, DepositResult_init none none none none "bogus" none
      = Except.error e)
    ∧ ({} : DepositResult).status ∈ depositStatusValues :=
  ⟨(DepositResult_init_validates_status none none none none "bogus"
      none).1.mpr (by decide),
   (DepositResult_init_validates_status none none none none "published"
      none).2 {} (by rfl)⟩

/-- C9: tag normalization splits the submitted tags string on commas, strips
surrounding whitespace from each piece and drops empty pieces; on the input
`"a, b ,, c"` it yields exactly `["a", "b", "c"]`. -/
theorem create_tags_trims_and_drops_empties :
    create_tags "a, b ,, c" = ["a", "b", "c"] ∧
    ∀ s, create_tags s =
      ((pySplitComma s).map pyStrip).filter (fun item => item ≠ "") :=
  ⟨by decide, fun _ => rfl⟩

/-- C10: for every paper and user, `OSFProtocol.init_deposit` reports the
paper as eligible (`True`) — it never refuses, not even for papers already
on OSF, despite its own docstring. -/
theorem osf_init_deposit_always_eligible :
    ∀ (paper : Paper) (user : User),
      (OSFProtocol_init_deposit paper user).2 = true :=
  fun _ _ => rfl

/-- C8: for every deposit attempt, the node-update `node_license` block and
the preprint-update `license_record` block are populated with the publication
year (`date[:-6]`) and the author full names as copyright holders exactly
when the form-selected license equals the environment-dependent "no license"
sentinel; for any other selected license both blocks are empty. -/
theorem license_blocks_populated_iff_no_license_sentinel :
    ∀ (endpoint : Option String) (form : OsfForm)
      (node_id preprint_id date : String) (authors : List AuthorName),
      (create_license_payload node_id form.license
          (OSF_no_license_id endpoint) (pyDropLast6 date) authors).node_license
        = (if form.license = OSF_no_license_id endpoint then
            LicenseBlock.populated (pyDropLast6 date)
              (authors.map translate_author)
          else LicenseBlock.emptyBlock) ∧
      (update_preprint_license_payload preprint_id form.license
          (OSF_no_license_id endpoint) (pyDropLast6 date)
          authors).license_record
        = (if form.license = OSF_no_license_id endpoint then
            LicenseBlock.populated (pyDropLast6 date)
              (authors.map translate_author)
          else LicenseBlock.emptyBlock) :=
  fun _ _ _ _ _ _ => ⟨rfl, rfl⟩

/-- C2 counterexample: when `submit_deposit` raises a `DepositError` and the
notification callback then raises, the callback exception escapes
`submit_deposit_wrapper` — the caller does not receive a `DepositResult`. -/
theorem wrapper_callback_exception_escapes :
    (submit_deposit_wrapper user0 sandboxRepo 3 id
        (SubmitOutcome.raised (PyExc.depositError "X") "")
        (fun _ => some (PyExc.other "RuntimeError" "boom" "tb"))).outcome
      = WrapperReturn.raised (PyExc.other "RuntimeError" "boom" "tb") := by
  decide

/-- C2 amended: whenever the notification callback returns normally,
`submit_deposit_wrapper` returns a `DepositResult` to its caller, for every
behaviour of `submit_deposit`. -/
theorem wrapper_returns_result_of_benign_callback :
    ∀ (user : User) (repo : Repository) (paperPk : Nat)
      (attach : BareOaiRecord → BareOaiRecord) (outcome : SubmitOutcome)
      (callback : NotificationPayload → Option PyExc),
      (∀ p, callback p = none) →
      ∃ r, (submit_deposit_wrapper user repo paperPk attach outcome
        callback).outcome = WrapperReturn.ret r := by
  intro user repo pk attach outcome callback h
  cases outcome with
  | ok raw logs =>
      rw [wrapper_ok_run user repo pk attach raw logs callback (h _)]
      split
      · exact ⟨_, rfl⟩
      · exact ⟨_, rfl⟩
  | raised e logs =>
      cases e with
      | depositError msg =>
          rw [wrapper_depositError_run user repo pk attach msg logs callback
            (h _)]
          exact ⟨_, rfl⟩
      | other ty txt trace =>
          rw [wrapper_other_run user repo pk attach ty txt trace logs callback]
          exact ⟨_, rfl⟩

/-- Witness for the amended C2 at a concrete attempt. -/
theorem wrapper_returns_result_of_benign_callback_witness :
    ∃ r, (submit_deposit_wrapper user0 sandboxRepo 3 id
        (SubmitOutcome.ok {} "") (fun _ => none)).outcome
      = WrapperReturn.ret r :=
  wrapper_returns_result_of_benign_callback user0 sandboxRepo 3 id
    (SubmitOutcome.ok {} "") (fun _ => none) (fun _ => rfl)

/-- C3: when `submit_deposit` raises `DepositError(msg)` (and the
notification callback returns normally), the wrapper returns a result with
status `"failed"`, message equal to `msg`, and a log containing `msg`. -/
theorem wrapper_depositError_failed_message_logged :
    ∀ (user : User) (repo : Repository) (paperPk : Nat)
      (attach : BareOaiRecord → BareOaiRecord) (msg logs : String)
      (callback : NotificationPayload → Option PyExc),
      (∀ p, callback p = none) →
      ∃ r, (submit_deposit_wrapper user repo paperPk attach
          (SubmitOutcome.raised (PyExc.depositError msg) logs)
          callback).outcome = WrapperReturn.ret r
        ∧ r.status = "failed" ∧ r.message = some msg
        ∧ ∃ L, r.logs = some L ∧ pyContains L msg = true := by
  intro user repo pk attach msg logs callback h
  rw [wrapper_depositError_run user repo pk attach msg logs callback (h _)]
  refine ⟨_, rfl, rfl, rfl, _, rfl, ?_⟩
  exact pyContains_of_surround _ _ (logs ++ "Message: ").data "\n".data
    (by simp [String.data_append, List.append_assoc])

/-- Witness for C3 at a concrete attempt with message `"X"`. -/
theorem wrapper_depositError_failed_message_logged_witness :
    ∃ r, (submit_deposit_wrapper user0 sandboxRepo 3 id
        (SubmitOutcome.raised (PyExc.depositError "X") "")
        (fun _ => none)).outcome = WrapperReturn.ret r
      ∧ r.status = "failed" ∧ r.message = some "X"
      ∧ ∃ L, r.logs = some L ∧ pyContains L "X" = true :=
  wrapper_depositError_failed_message_logged user0 sandboxRepo 3 id "X" ""
    (fun _ => none) (fun _ => rfl)

/-- C4 counterexample: when `submit_deposit` raises `RuntimeError("connect")`
the wrapper result's message is the fixed generic string — which does contain
the raw exception text `"connect"` as a substring, so the claim's "never
contains the raw exception text" is false at this input. -/
theorem wrapper_generic_message_can_contain_exception_text :
    (submit_deposit_wrapper user0 sandboxRepo 3 id
        (SubmitOutcome.raised (PyExc.other "RuntimeError" "connect" "tb") "")
        (fun _ => none))
      = { outcome := WrapperReturn.ret
            { logs := some "Caught exception:\nRuntimeError: connect\ntb\n",
              status := "failed", message := some genericFailureMessage },
          callbackCalls := [], attachedRecords := [] }
    ∧ pyContains genericFailureMessage "connect" = true :=
  ⟨by decide, by decide⟩

/-- C4 amended: on any non-`DepositError` exception the wrapper returns a
failed result whose message is the fixed generic string (independent of the
exception, so it contains the raw exception text only when that text happens
to be a substring of the fixed string), while the log carried on the result
contains the exception's type and text. -/
theorem wrapper_unclassified_exception_generic_message :
    ∀ (user : User) (repo : Repository) (paperPk : Nat)
      (attach : BareOaiRecord → BareOaiRecord) (ty txt trace logs : String)
      (callback : NotificationPayload → Option PyExc),
      (submit_deposit_wrapper user repo paperPk attach
          (SubmitOutcome.raised (PyExc.other ty txt trace) logs) callback)
        = { outcome := WrapperReturn.ret
              { logs := some (logs ++ "Caught exception:\n" ++ ty ++ ": "
                  ++ txt ++ "\n" ++ trace ++ "\n"),
                status := "failed", message := some genericFailureMessage },
            callbackCalls := [], attachedRecords := [] }
      ∧ pyContains (logs ++ "Caught exception:\n" ++ ty ++ ": " ++ txt
          ++ "\n" ++ trace ++ "\n") ty = true
      ∧ pyContains (logs ++ "Caught exception:\n" ++ ty ++ ": " ++ txt
          ++ "\n" ++ trace ++ "\n") txt = true := by
  intro user repo pk attach ty txt trace logs callback
  refine ⟨wrapper_other_run user repo pk attach ty txt trace logs callback,
    ?_, ?_⟩
  · exact pyContains_of_surround _ _ (logs ++ "Caught exception:\n").data
      (": " ++ txt ++ "\n" ++ trace ++ "\n").data
      (by simp [String.data_append, List.append_assoc])
  · exact pyContains_of_surround _ _
      (logs ++ "Caught exception:\n" ++ ty ++ ": ").data
      ("\n" ++ trace ++ "\n").data
      (by simp [String.data_append, List.append_assoc])

/-- C5 counterexample: when `submit_deposit` raises an exception that is not
a `DepositError`, the notification callback is not invoked at all — not
exactly once as claimed. -/
theorem wrapper_no_notification_on_unclassified_exception :
    (submit_deposit_wrapper user0 sandboxRepo 3 id
        (SubmitOutcome.raised (PyExc.other "RuntimeError" "boom" "tb") "")
        (fun _ => none)).callbackCalls.length = 0 := by
  decide

/-- C5 amended: with a normally returning callback, the wrapper notifies
exactly once with the (name, repository, paper URL) payload on a normal
return, exactly once with the error message appended to the paper URL on a
`DepositError`, and not at all on any other exception. -/
theorem wrapper_notification_calls_by_outcome :
    ∀ (user : User) (repo : Repository) (paperPk : Nat)
      (attach : BareOaiRecord → BareOaiRecord) (outcome : SubmitOutcome)
      (callback : NotificationPayload → Option PyExc),
      (∀ p, callback p = none) →
      (submit_deposit_wrapper user repo paperPk attach outcome
          callback).callbackCalls
        = match outcome with
          | SubmitOutcome.ok _ _ => [mkNotificationPayload user repo paperPk]
          | SubmitOutcome.raised (PyExc.depositError msg) _ =>
              [{ mkNotificationPayload user repo paperPk with
                  paperurl := (mkNotificationPayload user repo
                    paperPk).paperurl ++ " " ++ msg }]
          | SubmitOutcome.raised (PyExc.other _ _ _) _ => [] := by
  intro user repo pk attach outcome callback h
  cases outcome with
  | ok raw logs =>
      rw [wrapper_ok_run user repo pk attach raw logs callback (h _)]
      split <;> rfl
  | raised e logs =>
      cases e with
      | depositError msg =>
          rw [wrapper_depositError_run user repo pk attach msg logs callback
            (h _)]
      | other ty txt trace =>
          rw [wrapper_other_run user repo pk attach ty txt trace logs callback]

/-- Witness for the amended C5 at a concrete normal return. -/
theorem wrapper_notification_calls_by_outcome_witness :
    (submit_deposit_wrapper user0 sandboxRepo 3 id (SubmitOutcome.ok {} "")
        (fun _ => none)).callbackCalls
      = [mkNotificationPayload user0 sandboxRepo 3] :=
  wrapper_notification_calls_by_outcome user0 sandboxRepo 3 id
    (SubmitOutcome.ok {} "") (fun _ => none) (fun _ => rfl)

/-- C6: on a normal return whose result has a truthy splash URL, the wrapper
builds exactly one `BareOaiRecord`, whose identifier is
`"deposition:<repository-id>:<result-identifier>"` and which carries the
result's splash and PDF URLs, attaches it to the paper, and stores the
attached record in the result's `oairecord`; with a falsy splash URL no
record is built and the result is returned unchanged but for its logs. -/
theorem wrapper_oairecord_iff_splash_url :
    ∀ (user : User) (repo : Repository) (paperPk : Nat)
      (attach : BareOaiRecord → BareOaiRecord) (raw : DepositResult)
      (logs : String) (callback : NotificationPayload → Option PyExc),
      (∀ p, callback p = none) →
      (depositionRecord repo { raw with logs := some logs }
        = { source := repo.oaisource,
            identifier := "deposition:" ++ toString repo.id ++ ":"
              ++ pyUnicode raw.identifier,
            splash_url := raw.splash_url,
            pdf_url := raw.pdf_url })
      ∧ (pyTruthy raw.splash_url = true →
          (submit_deposit_wrapper user repo paperPk attach
              (SubmitOutcome.ok raw logs) callback).attachedRecords
            = [depositionRecord repo { raw with logs := some logs }]
          ∧ (submit_deposit_wrapper user repo paperPk attach
              (SubmitOutcome.ok raw logs) callback).outcome
            = WrapperReturn.ret
                { raw with
                  logs := some logs
                  oairecord := some (attach (depositionRecord repo
                    { raw with logs := some logs })) })
      ∧ (pyTruthy raw.splash_url = false →
          (submit_deposit_wrapper user repo paperPk attach
              (SubmitOutcome.ok raw logs) callback).attachedRecords = []
          ∧ (submit_deposit_wrapper user repo paperPk attach
              (SubmitOutcome.ok raw logs) callback).outcome
            = WrapperReturn.ret { raw with logs := some logs }) := by
  intro user repo pk attach raw logs callback h
  refine ⟨rfl, ?_, ?_⟩
  · intro hs
    rw [wrapper_ok_run user repo pk attach raw logs callback (h _),
      if_pos hs]
    exact ⟨rfl, rfl⟩
  · intro hs
    rw [wrapper_ok_run user repo pk attach raw logs callback (h _),
      if_neg (by simp [hs])]
    exact ⟨rfl, rfl⟩

/-- Witness for C6: a concrete successful result with a splash URL yields
exactly one attached deposition record, stored on the returned result. -/
theorem wrapper_oairecord_iff_splash_url_witness :
    (submit_deposit_wrapper user0 sandboxRepo 3 id
        (SubmitOutcome.ok splashResult "LOG") (fun _ => none)).attachedRecords
      = [depositionRecord sandboxRepo { splashResult with logs := some "LOG" }]
    ∧ (submit_deposit_wrapper user0 sandboxRepo 3 id
        (SubmitOutcome.ok splashResult "LOG") (fun _ => none)).outcome
      = WrapperReturn.ret
          { splashResult with
            logs := some "LOG"
            oairecord := some (id (depositionRecord sandboxRepo
              { splashResult with logs := some "LOG" })) } :=
  ((wrapper_oairecord_iff_splash_url user0 sandboxRepo 3 id splashResult
    "LOG" (fun _ => none) (fun _ => rfl)).2.1 (by decide))

/-- C1: in the end-to-end scenario where all nine OSF HTTP calls succeed with
their expected status codes, `submit_deposit` nevertheless returns the
default-constructed `DepositResult` — identifier, splash URL and PDF URL all
null — while the computed public URLs appear only in the log (the assignments
onto the result are commented out in the source). -/
theorem osf_success_scenario_returns_unpopulated_result :
    osfRunResult (OSFProtocol_submit_deposit sandboxRepo threeAuthorPaper
        filledOsfForm "" nineSuccessResponses)
      = some { identifier := none, splash_url := none, pdf_url := none,
               logs := none, status := "published", message := none,
               oairecord := none, additional_info := [] }
    ∧ pyContains (osfRunLogs (OSFProtocol_submit_deposit sandboxRepo
        threeAuthorPaper filledOsfForm "" nineSuccessResponses))
        "https://test.osf.io/pre1/download" = true :=
  ⟨by decide, by decide⟩

end Dissemin
